import Mathlib

/-!
Verification development for the USD/JPY carry-trade risk dashboard.

The repository computes risk indicators from daily price series:
spread statistics and alerts (src/indicators/spread.py), volatility
metrics (src/indicators/volatility.py), divergence and liquidity-retreat
detection (src/indicators/divergence.py), and a composite risk score
(src/components/alerts.py).

Modelling conventions:
- a pandas Series of spread or close values, after dropna, is a List ℚ
  (or List ℝ where the source applies log and sqrt);
- a date-indexed close-price DataFrame is a List (ℕ × ℚ) of
  (date, close) pairs in chronological order; pandas index intersection
  followed by loc-selection is modelled by filtering each list to the
  dates present in the other;
- NaN entries produced by shift/rolling are modelled with Option;
  pandas reductions that skip NaN are modelled by filterMap id;
- float arithmetic is modelled exactly over ℚ (ℝ for log/sqrt); the
  pandas behaviours of division by zero (inf) are outside the model and
  noted where they could occur.
-/

namespace Spread

/-- Statistics dictionary returned by get_spread_statistics
(src/indicators/spread.py lines 57-89).  The std field uses ℝ because
pandas .std() is the square root of the sample variance. -/
structure SpreadStats where
  current : ℚ
  mean : ℚ
  std : ℝ
  min : ℚ
  max : ℚ
  percentile : ℚ
  change_1d : ℚ
  change_5d : ℚ
  change_20d : ℚ

/-- Sample variance with denominator n - 1, as used by pandas .std()
(ddof = 1).  Junk value for lists shorter than 2 (pandas yields NaN
there; no claim depends on that corner). -/
def sampleVarQ (l : List ℚ) : ℚ :=
  (l.map (fun x => (x - l.sum / l.length) ^ 2)).sum / ((l.length : ℚ) - 1)

/-- Embedding of get_spread_statistics (src/indicators/spread.py lines
57-89) on the dropna-ed spread series.  Returns none for the empty
series (the source returns the empty dict). -/
noncomputable def get_spread_statistics (spread : List ℚ) : Option SpreadStats :=
  if spread = [] then none
  else
    let current := spread.getLastD 0
    some
      { current := current
        mean := spread.sum / spread.length
        std := Real.sqrt ((sampleVarQ spread : ℚ) : ℝ)
        min := (spread.min?).getD 0
        max := (spread.max?).getD 0
        percentile := ((spread.filter (fun x => x < current)).length : ℚ) / spread.length * 100
        change_1d := if 1 < spread.length then current - spread.getD (spread.length - 2) 0 else 0
        change_5d := if 5 < spread.length then current - spread.getD (spread.length - 5) 0 else 0
        change_20d := if 20 < spread.length then current - spread.getD (spread.length - 20) 0 else 0 }

/-- Default statistics record used only to unwrap the Option in theorem
statements. -/
def defaultStats : SpreadStats :=
  { current := 0, mean := 0, std := 0, min := 0, max := 0, percentile := 0
    change_1d := 0, change_5d := 0, change_20d := 0 }

/-- Modelled from the spec: config.py is not included under src/, so the
three spread alert thresholds of ALERT_THRESHOLDS are taken from the
spec (section 8 scenario: warning default 2.5, critical default 1.5;
section 4.4 banding gives the intermediate danger level 2.0). -/
def SPREAD_CRITICAL : ℚ := 1.5

/-- Modelled from the spec: default danger threshold (see SPREAD_CRITICAL). -/
def SPREAD_DANGER : ℚ := 2

/-- Modelled from the spec: default warning threshold (see SPREAD_CRITICAL). -/
def SPREAD_WARNING : ℚ := 2.5

/-- Embedding of check_spread_alert (src/indicators/spread.py lines
128-148), parameterized by the three configuration thresholds; returns
the (level, colour) pair of strings. -/
def check_spread_alert (critical danger warning : ℚ) (current_spread : ℚ) :
    String × String :=
  if current_spread ≤ critical then ("critical", "#9C27B0")
  else if current_spread ≤ danger then ("danger", "#FF1744")
  else if current_spread ≤ warning then ("warning", "#FFD600")
  else ("safe", "#00C853")

/-- Severity rank of an alert level string, following the ordered
enumeration SAFE < INFO < WARNING < DANGER < CRITICAL of the spec. -/
def severityRank (level : String) : ℕ :=
  if level = "critical" then 4
  else if level = "danger" then 3
  else if level = "warning" then 2
  else if level = "info" then 1
  else 0

/-- Embedding of calculate_spread_velocity (src/indicators/spread.py
lines 151-173): daily average change over the trailing window. -/
def calculate_spread_velocity (spread : List ℚ) (window : ℕ) : ℚ :=
  if spread = [] then 0
  else if spread.length < window then 0
  else
    let recent := spread.drop (spread.length - window)
    (recent.getLastD 0 - recent.headD 0) / window

/-- Embedding of is_spread_accelerating (src/indicators/spread.py lines
176-187). -/
def is_spread_accelerating (spread : List ℚ) : Bool :=
  let velocity_5d := calculate_spread_velocity spread 5
  let velocity_20d := calculate_spread_velocity spread 20
  decide (velocity_5d < velocity_20d ∧ velocity_5d < 0)

/-- Concrete 20-observation spread series: flat, then a jump to 25 that
partly retraces to 20.  Its 20-day velocity is +1 (non-negative) while
its 5-day velocity is -1. -/
def wideningSeries : List ℚ :=
  [0, 0, 0, 0, 0, 0, 0, 0, 0, 0, 0, 0, 0, 0, 0, 25, 25, 25, 25, 20]

end Spread

namespace Divergence

/-- A date-indexed close-price series: (date, close) pairs in
chronological order.  Only the Close column is modelled, matching the
column extraction at the top of each source function. -/
abbrev Series := List (ℕ × ℚ)

/-- Dates of a series (its pandas index). -/
def dates (s : Series) : List ℕ := s.map Prod.fst

/-- Pandas index intersection followed by loc-selection, seen from the
first series: keep the rows of a whose date also occurs in b. -/
def alignTo (a b : Series) : Series :=
  a.filter (fun p => decide (p.1 ∈ dates b))

/-- Close values of a series. -/
def closes (s : Series) : List ℚ := s.map Prod.snd

/-- Pandas Series.pct_change(periods = window) on a value list: entry i
is v i / v (i - window) - 1, undefined (NaN) for the first window
entries.  A zero base value is modelled as undefined (pandas would give
inf there; no claim exercises that corner). -/
def pctChange (window : ℕ) (v : List ℚ) : List (Option ℚ) :=
  (List.range v.length).map fun i =>
    if window ≤ i ∧ v.getD (i - window) 0 ≠ 0 then
      some (v.getD i 0 / v.getD (i - window) 0 - 1)
    else none

/-- Embedding of calculate_relative_strength (src/indicators/divergence.py
lines 23-61): align the two series on common dates, take window-period
percentage returns of each and return their difference times 100, per
aligned date (positionally; an entry is none where either return is
undefined). -/
def calculate_relative_strength (asset benchmark : Series) (window : ℕ) :
    List (Option ℚ) :=
  if asset = [] ∨ benchmark = [] then []
  else
    let asset_close := closes (alignTo asset benchmark)
    let bench_close := closes (alignTo benchmark asset)
    List.zipWith
      (fun x y =>
        match x, y with
        | some u, some v => some ((u - v) * 100)
        | _, _ => none)
      (pctChange window asset_close) (pctChange window bench_close)

/-- One entry of the details list built by detect_divergence.  The
formatted message string of the source is presentation-layer output and
is not modelled; the numeric payload of the dict is. -/
structure DivDetail where
  ticker : String
  relative_strength : ℚ
  asset_return : ℚ
deriving DecidableEq

/-- Result dictionary of detect_divergence (src/indicators/divergence.py
lines 105-179). -/
structure DivergenceResult where
  divergence_detected : Bool
  divergence_score : ℚ
  details : List DivDetail
  benchmark_performance : ℚ
  high_beta_performance : List (String × ℚ)
deriving DecidableEq

/-- Return over the trailing window used inside detect_divergence:
(close.iloc[-1] / close.iloc[-window] - 1) * 100 when len > window,
else 0.  (iloc[-window] is position len - window.) -/
def trailingReturn (v : List ℚ) (window : ℕ) : ℚ :=
  if window < v.length then
    (v.getLastD 0 / v.getD (v.length - window) 0 - 1) * 100
  else 0

/-- Latest relative-strength value with the source's NaN guard:
rs.iloc[-1] if defined, else 0. -/
def currentRS (rs : List (Option ℚ)) : ℚ :=
  (rs.getLastD none).getD 0

/-- Loop state of detect_divergence: accumulated divergence scores,
details and per-asset performance map. -/
abbrev DetectAcc := List ℚ × List DivDetail × List (String × ℚ)

/-- One iteration of the asset loop of detect_divergence. -/
def detectStep (benchmark : Series) (window : ℕ) (threshold : ℚ)
    (benchReturn : ℚ) (acc : DetectAcc) (entry : String × Series) : DetectAcc :=
  if entry.2 = [] then acc
  else
    let rs := calculate_relative_strength entry.2 benchmark window
    if rs = [] then acc
    else
      let current_rs := currentRS rs
      let asset_return := trailingReturn (closes entry.2) window
      let acc1 : DetectAcc := (acc.1, acc.2.1, acc.2.2 ++ [(entry.1, asset_return)])
      if benchReturn ≥ -2 ∧ current_rs < threshold * 100 then
        (acc1.1 ++ [current_rs],
         acc1.2.1 ++ [⟨entry.1, current_rs, asset_return⟩],
         acc1.2.2)
      else acc1

/-- Embedding of detect_divergence (src/indicators/divergence.py lines
105-179), parameterized by the configured window
(CALC_PARAMS RELATIVE_STRENGTH_WINDOW) and divergence threshold
(ALERT_THRESHOLDS DIVERGENCE_THRESHOLD, a fraction multiplied by 100 in
the comparison). -/
def detect_divergence (high_beta_assets : List (String × Series))
    (benchmark : Series) (window : ℕ) (threshold : ℚ) : DivergenceResult :=
  if benchmark = [] then
    { divergence_detected := false, divergence_score := 0, details := []
      benchmark_performance := 0, high_beta_performance := [] }
  else
    let benchReturn := trailingReturn (closes benchmark) window
    let acc := high_beta_assets.foldl
      (detectStep benchmark window threshold benchReturn) ([], [], [])
    { divergence_detected := acc.1 ≠ []
      divergence_score := if acc.1 = [] then 0 else acc.1.sum / acc.1.length
      details := acc.2.1
      benchmark_performance := benchReturn
      high_beta_performance := acc.2.2 }

/-- Sample variance of a value list with denominator n - 1 (pandas
Series.var, ddof = 1). -/
def sampleVar (l : List ℚ) : ℚ :=
  (l.map (fun x => (x - l.sum / l.length) ^ 2)).sum / ((l.length : ℚ) - 1)

/-- Sample covariance of two value lists with denominator n - 1 (pandas
Series.cov on identically indexed series). -/
def sampleCov (a b : List ℚ) : ℚ :=
  ((a.zip b).map (fun p => (p.1 - a.sum / a.length) * (p.2 - b.sum / b.length))).sum
    / ((a.length : ℚ) - 1)

/-- Day-over-day simple returns: pct_change().dropna() of a value list.
The source drops the leading NaN; a zero base is junk here (pandas
would give inf, not NaN; no claim exercises it). -/
def dailyReturns (v : List ℚ) : List ℚ :=
  (List.range v.length).filterMap fun i =>
    if 1 ≤ i then some (v.getD i 0 / v.getD (i - 1) 0 - 1) else none

/-- Date-aligned close values trimmed to the trailing window
(close.loc[common_idx].tail(window) in the source). -/
def alignedTail (a b : Series) (window : ℕ) : List ℚ :=
  (closes (alignTo a b)).drop ((closes (alignTo a b)).length - window)

/-- Embedding of calculate_beta (src/indicators/divergence.py lines
214-258): covariance of aligned daily returns over the benchmark return
variance, with a neutral default of 1.0 for empty inputs, fewer than 20
aligned trailing observations, or zero benchmark variance. -/
def calculate_beta (asset benchmark : Series) (window : ℕ) : ℚ :=
  if asset = [] ∨ benchmark = [] then 1
  else
    let asset_close := alignedTail asset benchmark window
    let bench_close := alignedTail benchmark asset window
    if asset_close.length < 20 then 1
    else
      let asset_returns := dailyReturns asset_close
      let bench_returns := dailyReturns bench_close
      let covariance := sampleCov asset_returns bench_returns
      let variance := sampleVar bench_returns
      if variance = 0 then 1 else covariance / variance

/-- Latest relative-strength value of one asset entry of the loop of
detect_divergence, none when the loop skips the entry (empty frame or
empty relative-strength series). -/
def processedRS (benchmark : Series) (window : ℕ) (e : String × Series) :
    Option ℚ :=
  if e.2 = [] then none
  else
    let rs := calculate_relative_strength e.2 benchmark window
    if rs = [] then none else some (currentRS rs)

/-- Relative-strength values of the assets flagged as divergent: the
benchmark is not meaningfully falling and the asset's latest relative
strength is below threshold times 100.  This is the claim-side
characterization of the divergence_scores list accumulated by the
source loop. -/
def flaggedScores (assets : List (String × Series)) (benchmark : Series)
    (window : ℕ) (threshold : ℚ) : List ℚ :=
  assets.filterMap fun e =>
    (processedRS benchmark window e).bind fun r =>
      if trailingReturn (closes benchmark) window ≥ -2 ∧ r < threshold * 100 then
        some r
      else none

/-- Per-asset metrics row built by the first loop of
analyze_liquidity_retreat. -/
structure AssetMetric where
  ticker : String
  beta : ℚ
  relative_strength_5d : ℚ
deriving DecidableEq

/-- Result dictionary of analyze_liquidity_retreat. -/
structure RetreatAnalysis where
  retreat_detected : Bool
  retreat_order : List String
  severity : String
deriving DecidableEq

/-- Metrics list of analyze_liquidity_retreat before sorting: one row
per non-empty asset with its beta (window 60) and 5-day relative
strength (latest value, 0 when missing or NaN). -/
def assetMetrics (assets : List (String × Series)) (benchmark : Series) :
    List AssetMetric :=
  assets.filterMap fun e =>
    if e.2 = [] then none
    else
      some
        { ticker := e.1
          beta := calculate_beta e.2 benchmark 60
          relative_strength_5d := currentRS (calculate_relative_strength e.2 benchmark 5) }

/-- High-beta underperformer test of the retreat loop. -/
def highBetaUnder (m : AssetMetric) : Bool :=
  decide ((1.2 : ℚ) < m.beta ∧ m.relative_strength_5d < -5)

/-- Low-beta stable test of the retreat loop. -/
def lowBetaStable (m : AssetMetric) : Bool :=
  decide (m.beta < 1 ∧ (-2 : ℚ) < m.relative_strength_5d)

/-- One iteration of the counting loop of analyze_liquidity_retreat:
state is (high count, low count, retreat order so far). -/
def retreatStep (acc : ℕ × ℕ × List String) (m : AssetMetric) :
    ℕ × ℕ × List String :=
  if highBetaUnder m then (acc.1 + 1, acc.2.1, acc.2.2 ++ [m.ticker])
  else if lowBetaStable m then (acc.1, acc.2.1 + 1, acc.2.2)
  else acc

/-- Embedding of analyze_liquidity_retreat (src/indicators/divergence.py
lines 261-319): compute metrics, sort by beta descending (Python
list.sort with reverse = True; stable merge sort), count high-beta
underperformers and low-beta stable assets, and assemble the result. -/
def analyze_liquidity_retreat (assets : List (String × Series))
    (benchmark : Series) : RetreatAnalysis :=
  let sorted := (assetMetrics assets benchmark).mergeSort
    (fun a b => decide (b.beta ≤ a.beta))
  let acc := sorted.foldl retreatStep (0, 0, [])
  if 2 ≤ acc.1 ∧ 1 ≤ acc.2.1 then
    { retreat_detected := true
      retreat_order := acc.2.2
      severity := if 3 ≤ acc.1 then "high" else "medium" }
  else
    { retreat_detected := false
      retreat_order := acc.2.2
      severity := "none" }

end Divergence

namespace Volatility

/-- Modelled from the spec: config.py is not included under src/, so the
default volatility window CALC_PARAMS VOL_WINDOW is taken from the spec
(section 8 requires at least 21 observations and says the first window
points are undefined, giving the documented default window of 20). -/
def VOL_WINDOW : ℕ := 20

/-- Log returns np.log(close / close.shift(1)): the first entry is NaN
(none); later entries use the total Real.log (the source would produce
NaN on a non-positive ratio; the claims hold in either reading). -/
noncomputable def logReturns (close : List ℝ) : List (Option ℝ) :=
  (List.range close.length).map fun i =>
    if i = 0 then none
    else some (Real.log (close.getD i 0 / close.getD (i - 1) 0))

/-- Sample standard-deviation body with denominator n - 1 (pandas
rolling std, ddof = 1). -/
noncomputable def sampleVarR (l : List ℝ) : ℝ :=
  (l.map (fun x => (x - l.sum / l.length) ^ 2)).sum / ((l.length : ℝ) - 1)

/-- Rolling sample standard deviation over a window, on a series with
NaN entries: position i is defined when the window of the last w entries
ending at i is complete (i + 1 ≥ w, min_periods = window), every entry
in it is defined, and w ≥ 2 (with ddof = 1 pandas returns NaN for a
window of one observation). -/
noncomputable def rollingStd (w : ℕ) (xs : List (Option ℝ)) : List (Option ℝ) :=
  (List.range xs.length).map fun i =>
    if 2 ≤ w ∧ w ≤ i + 1 then
      let ws := (xs.drop (i + 1 - w)).take w
      if ws.all Option.isSome then some (Real.sqrt (sampleVarR (ws.filterMap id)))
      else none
    else none

/-- Embedding of calculate_historical_volatility
(src/indicators/volatility.py lines 13-45) on the close column: rolling
standard deviation of log returns, annualized by sqrt 252, times 100. -/
noncomputable def calculate_historical_volatility (close : List ℝ) (window : ℕ) :
    List (Option ℝ) :=
  (rollingStd window (logReturns close)).map
    (Option.map (fun s => s * Real.sqrt 252 * 100))

/-- Mean of a pandas Series with NaN entries: skip the NaN values, NaN
(none) when nothing remains. -/
noncomputable def seriesMean (l : List (Option ℝ)) : Option ℝ :=
  let v := l.filterMap id
  if v = [] then none else some (v.sum / v.length)

/-- Embedding of is_volatility_spiking (src/indicators/volatility.py
lines 271-288): false when the volatility series has fewer than 20
entries, else compare the mean of the last 5 entries with 1.5 times the
mean of the last 20 (a comparison against NaN is false). -/
noncomputable def is_volatility_spiking (close : List ℝ) : Bool :=
  let hv := calculate_historical_volatility close VOL_WINDOW
  if hv.length < 20 then false
  else
    match seriesMean (hv.drop (hv.length - 5)), seriesMean (hv.drop (hv.length - 20)) with
    | some recent_5d, some recent_20d => if recent_20d * 1.5 < recent_5d then true else false
    | _, _ => false

end Volatility

namespace Alerts

/-- Divergence-result dictionary as consumed by
calculate_composite_risk_score: the two keys it reads, each possibly
absent (dict.get with a default). -/
structure DivInput where
  divergence_detected : Option Bool
  divergence_score : Option ℚ
deriving DecidableEq

/-- Spread block of calculate_composite_risk_score
(src/components/alerts.py lines 248-261): the points added and the
factor strings appended for the current spread value. -/
def spreadScore (spread : ℚ) : ℚ × List String :=
  if spread ≤ 1.5 then (40, ["利差极度收窄"])
  else if spread ≤ 2 then (30, ["利差危险收窄"])
  else if spread ≤ 2.5 then (20, ["利差收窄至警戒线"])
  else if spread ≤ 3 then (10, ["利差处于较低水平"])
  else (0, [])

/-- Volatility block of calculate_composite_risk_score
(src/components/alerts.py lines 263-272). -/
def volScore (hv : ℚ) : ℚ × List String :=
  if 95 ≤ hv then (30, ["波动率处于极端水平"])
  else if 80 ≤ hv then (20, ["波动率偏高"])
  else if 60 ≤ hv then (10, ["波动率有所上升"])
  else (0, [])

/-- Divergence block of calculate_composite_risk_score
(src/components/alerts.py lines 274-285). -/
def divScore (divergence_result : DivInput) : ℚ × List String :=
  if divergence_result.divergence_detected.getD false then
    let div_score := |divergence_result.divergence_score.getD 0|
    if 20 < div_score then (30, ["严重资产背离"])
    else if 10 < div_score then (20, ["明显资产背离"])
    else (10, ["轻微资产背离"])
  else (0, [])

/-- Embedding of calculate_composite_risk_score
(src/components/alerts.py lines 229-288): the three blocks run in
order, each adding its points to the score and appending its factor
strings.  The spread-statistics and volatility-statistics dictionaries
are modelled by the single key each that the function reads (current,
hv_percentile), possibly absent. -/
def calculate_composite_risk_score (spread_current : Option ℚ)
    (hv_percentile : Option ℚ) (divergence_result : DivInput) :
    ℚ × List String :=
  let s1 := spreadScore (spread_current.getD 5)
  let s2 := volScore (hv_percentile.getD 50)
  let s3 := divScore divergence_result
  (s1.1 + s2.1 + s3.1, s1.2 ++ s2.2 ++ s3.2)

/-- Spread band contribution as the claim words it. -/
def spreadBand (spread : ℚ) : ℚ :=
  if spread ≤ 1.5 then 40
  else if spread ≤ 2 then 30
  else if spread ≤ 2.5 then 20
  else if spread ≤ 3 then 10
  else 0

/-- Volatility band contribution as the claim words it. -/
def volBand (hv : ℚ) : ℚ :=
  if 95 ≤ hv then 30
  else if 80 ≤ hv then 20
  else if 60 ≤ hv then 10
  else 0

/-- Divergence contribution as the claim words it: added only when
detected, graded by the absolute score. -/
def divBand (detected : Bool) (score : ℚ) : ℚ :=
  if detected then
    if 20 < |score| then 30
    else if 10 < |score| then 20
    else 10
  else 0

end Alerts

/-! ## Theorems -/

section SpreadTheorems

open Spread

/-- C2 counterexample: on the concrete series wideningSeries the 20-day
velocity is non-negative (it is +1), yet is_spread_accelerating returns
true, because the source only tests the 5-day velocity for sign. -/
theorem is_spread_accelerating_nonneg_20d_counterexample :
    Spread.is_spread_accelerating Spread.wideningSeries = true ∧
      0 ≤ Spread.calculate_spread_velocity Spread.wideningSeries 20 := by
  have h5 : Spread.calculate_spread_velocity Spread.wideningSeries 5
      = ((20:ℚ) - 25) / ((5:ℕ):ℚ) := rfl
  have h20 : Spread.calculate_spread_velocity Spread.wideningSeries 20
      = ((20:ℚ) - 0) / ((20:ℕ):ℚ) := rfl
  refine ⟨?_, ?_⟩
  · show decide (Spread.calculate_spread_velocity Spread.wideningSeries 5
        < Spread.calculate_spread_velocity Spread.wideningSeries 20
      ∧ Spread.calculate_spread_velocity Spread.wideningSeries 5 < 0) = true
    rw [decide_eq_true_eq, h5, h20]
    norm_num
  · rw [h20]; norm_num

/-- C2 amended: for every spread series, is_spread_accelerating returns
false whenever the 5-day velocity (calculate_spread_velocity with
window 5) is non-negative, regardless of the sign of the 20-day
velocity. -/
theorem is_spread_accelerating_requires_negative_5d (spread : List ℚ)
    (h : 0 ≤ Spread.calculate_spread_velocity spread 5) :
    Spread.is_spread_accelerating spread = false := by
  show decide (Spread.calculate_spread_velocity spread 5
      < Spread.calculate_spread_velocity spread 20
    ∧ Spread.calculate_spread_velocity spread 5 < 0) = false
  rw [decide_eq_false_iff_not]
  rintro ⟨-, h2⟩
  exact absurd h2 (not_lt.2 h)

/-- C2 witness: the empty series has 5-day velocity 0, and
is_spread_accelerating is false on it. -/
theorem is_spread_accelerating_requires_negative_5d_witness :
    0 ≤ Spread.calculate_spread_velocity [] 5 ∧
      Spread.is_spread_accelerating [] = false :=
  ⟨by decide, is_spread_accelerating_requires_negative_5d [] (by decide)⟩

/-- C3: check_spread_alert is monotone in severity for every choice of
the three configured thresholds: a strictly smaller spread never gets a
strictly less severe level, under safe < warning < danger < critical. -/
theorem check_spread_alert_monotone (critical danger warning s1 s2 : ℚ)
    (h : s1 < s2) :
    Spread.severityRank (Spread.check_spread_alert critical danger warning s2).1
      ≤ Spread.severityRank (Spread.check_spread_alert critical danger warning s1).1 := by
  unfold Spread.check_spread_alert
  split_ifs <;> first | decide | linarith

/-- C3 witness: with the default thresholds, the level for spread 1 is
at least as severe as the level for spread 3. -/
theorem check_spread_alert_monotone_witness :
    Spread.severityRank
        (Spread.check_spread_alert Spread.SPREAD_CRITICAL Spread.SPREAD_DANGER
          Spread.SPREAD_WARNING 3).1
      ≤ Spread.severityRank
        (Spread.check_spread_alert Spread.SPREAD_CRITICAL Spread.SPREAD_DANGER
          Spread.SPREAD_WARNING 1).1 :=
  check_spread_alert_monotone Spread.SPREAD_CRITICAL Spread.SPREAD_DANGER
    Spread.SPREAD_WARNING 1 3 (by decide)

end SpreadTheorems
section C4

/-- Helper: the last element (with default) of a non-empty list is a member. -/
theorem list_getLastD_mem {α : Type _} : ∀ (l : List α) (d : α), l ≠ [] → l.getLastD d ∈ l
  | [], _, h => absurd rfl h
  | [a], d, _ => by simp
  | a :: b :: u, d, _ => by
    rw [List.getLastD_cons]
    exact List.mem_cons_of_mem a (list_getLastD_mem (b :: u) a (by simp))

/-- Helper: the default value of getLastD is irrelevant on a cons. -/
theorem getLastD_default_irrel {α : Type _} (b : α) (u : List α) (d d' : α) :
    (b :: u).getLastD d = (b :: u).getLastD d' := by
  rw [List.getLastD_cons, List.getLastD_cons]

/-- Helper: in a strictly decreasing rational list, the last element is a
lower bound. -/
theorem getLastD_le_of_decreasing (l : List ℚ)
    (hl : List.Pairwise (fun a b => b < a) l) : ∀ x ∈ l, l.getLastD 0 ≤ x := by
  induction l with
  | nil => simp
  | cons a t ih =>
    rcases List.pairwise_cons.1 hl with ⟨ha, ht⟩
    intro x hx
    rcases List.mem_cons.1 hx with rfl | hx'
    · cases t with
      | nil => simp [List.getLastD]
      | cons b u =>
        rw [List.getLastD_cons]
        exact le_of_lt (ha _ (list_getLastD_mem (b :: u) x (by simp)))
    · cases t with
      | nil => cases hx'
      | cons b u =>
        rw [List.getLastD_cons, getLastD_default_irrel b u a 0]
        exact ih ht x hx'

/-- C4: for every non-empty spread series, the percentile field of
get_spread_statistics is the count of observations strictly below the
latest one over the total count, times 100; it lies in the interval
from 0 to 100, and it is 0 for every strictly decreasing series. -/
theorem spread_statistics_percentile_spec (l : List ℚ) (h : l ≠ []) :
    ((Spread.get_spread_statistics l).getD Spread.defaultStats).percentile
        = ((l.filter (fun x => x < l.getLastD 0)).length : ℚ) / l.length * 100
    ∧ 0 ≤ ((Spread.get_spread_statistics l).getD Spread.defaultStats).percentile
    ∧ ((Spread.get_spread_statistics l).getD Spread.defaultStats).percentile ≤ 100
    ∧ (List.Pairwise (fun a b => b < a) l →
        ((Spread.get_spread_statistics l).getD Spread.defaultStats).percentile = 0) := by
  have hp : ((Spread.get_spread_statistics l).getD Spread.defaultStats).percentile
      = ((l.filter (fun x => x < l.getLastD 0)).length : ℚ) / l.length * 100 := by
    unfold Spread.get_spread_statistics
    rw [if_neg h]
    rfl
  refine ⟨hp, ?_, ?_, ?_⟩
  · rw [hp]; positivity
  · rw [hp]
    have hl : (0:ℚ) < l.length := by
      exact_mod_cast List.length_pos.2 h
    have hc : ((l.filter (fun x => x < l.getLastD 0)).length : ℚ) ≤ (l.length : ℚ) := by
      exact_mod_cast List.length_filter_le _ l
    calc ((l.filter (fun x => x < l.getLastD 0)).length : ℚ) / l.length * 100
        ≤ 1 * 100 := by
          apply mul_le_mul_of_nonneg_right _ (by norm_num)
          exact (div_le_one hl).2 hc
      _ = 100 := by norm_num
  · intro hdec
    rw [hp]
    have hnil : l.filter (fun x => x < l.getLastD 0) = [] := by
      rw [List.filter_eq_nil_iff]
      intro a ha
      simpa using not_lt.2 (getLastD_le_of_decreasing l hdec a ha)
    rw [hnil]
    simp

/-- C4 witness: the strictly decreasing series 3, 2, 1 is non-empty and
its percentile is 0. -/
theorem spread_statistics_percentile_witness :
    (([3, 2, 1] : List ℚ) ≠ [] ∧ List.Pairwise (fun a b => b < a) ([3, 2, 1] : List ℚ))
    ∧ ((Spread.get_spread_statistics [3, 2, 1]).getD Spread.defaultStats).percentile = 0 :=
  ⟨⟨by decide, by decide⟩,
    (spread_statistics_percentile_spec [3, 2, 1] (by decide)).2.2.2 (by decide)⟩

end C4
section C1

/-- Helper: the spread block's points equal the claim's spread band. -/
theorem spreadScore_fst (q : ℚ) : (Alerts.spreadScore q).1 = Alerts.spreadBand q := by
  unfold Alerts.spreadScore Alerts.spreadBand
  split_ifs <;> rfl

/-- Helper: the volatility block's points equal the claim's band. -/
theorem volScore_fst (q : ℚ) : (Alerts.volScore q).1 = Alerts.volBand q := by
  unfold Alerts.volScore Alerts.volBand
  split_ifs <;> rfl

/-- Helper: the divergence block's points equal the claim's band. -/
theorem divScore_fst (dr : Alerts.DivInput) :
    (Alerts.divScore dr).1
      = Alerts.divBand (dr.divergence_detected.getD false) (dr.divergence_score.getD 0) := by
  unfold Alerts.divScore Alerts.divBand
  by_cases hd : dr.divergence_detected.getD false = true
  · by_cases h20 : 20 < |dr.divergence_score.getD 0|
    · simp [hd, h20]
    · by_cases h10 : 10 < |dr.divergence_score.getD 0|
      · simp [hd, h20, h10]
      · simp [hd, h20, h10]
  · simp [hd]

/-- Helper: the spread band is between 0 and 40. -/
theorem spreadBand_bounds (q : ℚ) :
    0 ≤ Alerts.spreadBand q ∧ Alerts.spreadBand q ≤ 40 := by
  unfold Alerts.spreadBand
  split_ifs <;> norm_num

/-- Helper: the volatility band is between 0 and 30. -/
theorem volBand_bounds (q : ℚ) : 0 ≤ Alerts.volBand q ∧ Alerts.volBand q ≤ 30 := by
  unfold Alerts.volBand
  split_ifs <;> norm_num

/-- Helper: the divergence band is between 0 and 30. -/
theorem divBand_bounds (d : Bool) (q : ℚ) :
    0 ≤ Alerts.divBand d q ∧ Alerts.divBand d q ≤ 30 := by
  unfold Alerts.divBand
  split_ifs <;> norm_num

/-- C1: the composite risk score is the sum of the spread band, the
volatility band and the divergence contribution, hence always between 0
and 100, and the factors list is the three blocks' factor strings in
category order spread, volatility, divergence; in particular, current
spread 1, hv_percentile 97 and a detected divergence of score -25 give
exactly 100 and exactly the three factor strings in that order. -/
theorem composite_risk_score_spec (sc hv : Option ℚ) (dr : Alerts.DivInput) :
    (Alerts.calculate_composite_risk_score sc hv dr).1
        = Alerts.spreadBand (sc.getD 5) + Alerts.volBand (hv.getD 50)
          + Alerts.divBand (dr.divergence_detected.getD false) (dr.divergence_score.getD 0)
    ∧ 0 ≤ (Alerts.calculate_composite_risk_score sc hv dr).1
    ∧ (Alerts.calculate_composite_risk_score sc hv dr).1 ≤ 100
    ∧ (Alerts.calculate_composite_risk_score sc hv dr).2
        = (Alerts.spreadScore (sc.getD 5)).2 ++ (Alerts.volScore (hv.getD 50)).2
          ++ (Alerts.divScore dr).2
    ∧ (sc = some 1 → hv = some 97 → dr.divergence_detected = some true →
        dr.divergence_score = some (-25) →
        Alerts.calculate_composite_risk_score sc hv dr
          = (100, ["利差极度收窄", "波动率处于极端水平", "严重资产背离"])) := by
  have hfst : (Alerts.calculate_composite_risk_score sc hv dr).1
      = Alerts.spreadBand (sc.getD 5) + Alerts.volBand (hv.getD 50)
        + Alerts.divBand (dr.divergence_detected.getD false) (dr.divergence_score.getD 0) := by
    show (Alerts.spreadScore (sc.getD 5)).1 + (Alerts.volScore (hv.getD 50)).1
        + (Alerts.divScore dr).1 = _
    rw [spreadScore_fst, volScore_fst, divScore_fst]
  refine ⟨hfst, ?_, ?_, rfl, ?_⟩
  · rw [hfst]
    have h1 := spreadBand_bounds (sc.getD 5)
    have h2 := volBand_bounds (hv.getD 50)
    have h3 := divBand_bounds (dr.divergence_detected.getD false) (dr.divergence_score.getD 0)
    linarith [h1.1, h2.1, h3.1]
  · rw [hfst]
    have h1 := spreadBand_bounds (sc.getD 5)
    have h2 := volBand_bounds (hv.getD 50)
    have h3 := divBand_bounds (dr.divergence_detected.getD false) (dr.divergence_score.getD 0)
    linarith [h1.2, h2.2, h3.2]
  · rintro rfl rfl h1 h2
    obtain ⟨d, s⟩ := dr
    simp only at h1 h2
    subst h1; subst h2
    have e1 : Alerts.spreadScore ((some (1:ℚ)).getD 5) = (40, ["利差极度收窄"]) := by
      unfold Alerts.spreadScore; norm_num
    have e2 : Alerts.volScore ((some (97:ℚ)).getD 50) = (30, ["波动率处于极端水平"]) := by
      unfold Alerts.volScore; norm_num
    have e3 : Alerts.divScore ⟨some true, some (-25)⟩ = (30, ["严重资产背离"]) := by
      unfold Alerts.divScore; norm_num
    show ((Alerts.spreadScore ((some (1:ℚ)).getD 5)).1
          + (Alerts.volScore ((some (97:ℚ)).getD 50)).1
          + (Alerts.divScore ⟨some true, some (-25)⟩).1,
        (Alerts.spreadScore ((some (1:ℚ)).getD 5)).2
          ++ (Alerts.volScore ((some (97:ℚ)).getD 50)).2
          ++ (Alerts.divScore ⟨some true, some (-25)⟩).2) = _
    rw [e1, e2, e3]
    norm_num

/-- C1 witness: the concrete scenario inputs give score 100 and the
three factor strings. -/
theorem composite_risk_score_witness :
    Alerts.calculate_composite_risk_score (some 1) (some 97) ⟨some true, some (-25)⟩
      = (100, ["利差极度收窄", "波动率处于极端水平", "严重资产背离"]) :=
  (composite_risk_score_spec (some 1) (some 97) ⟨some true, some (-25)⟩).2.2.2.2
    rfl rfl rfl rfl

end C1
section C9

/-- C9: calculate_beta is total and returns the neutral default 1 in
every degraded case — an empty input series, fewer than 20 aligned
trailing observations, or zero benchmark return variance — and
otherwise returns the covariance of the aligned daily returns divided
by the benchmark return variance. -/
theorem calculate_beta_guards (a b : Divergence.Series) (w : ℕ) :
    ((a = [] ∨ b = []) → Divergence.calculate_beta a b w = 1)
    ∧ (¬(a = [] ∨ b = []) → (Divergence.alignedTail a b w).length < 20 →
        Divergence.calculate_beta a b w = 1)
    ∧ (¬(a = [] ∨ b = []) → 20 ≤ (Divergence.alignedTail a b w).length →
        Divergence.sampleVar (Divergence.dailyReturns (Divergence.alignedTail b a w)) = 0 →
        Divergence.calculate_beta a b w = 1)
    ∧ (¬(a = [] ∨ b = []) → 20 ≤ (Divergence.alignedTail a b w).length →
        Divergence.sampleVar (Divergence.dailyReturns (Divergence.alignedTail b a w)) ≠ 0 →
        Divergence.calculate_beta a b w
          = Divergence.sampleCov (Divergence.dailyReturns (Divergence.alignedTail a b w))
              (Divergence.dailyReturns (Divergence.alignedTail b a w))
            / Divergence.sampleVar (Divergence.dailyReturns (Divergence.alignedTail b a w))) := by
  refine ⟨?_, ?_, ?_, ?_⟩
  · intro h
    simp [Divergence.calculate_beta, h]
  · intro h hlen
    simp [Divergence.calculate_beta, h, hlen]
  · intro h hlen hvar
    simp [Divergence.calculate_beta, h, not_lt.2 hlen, hvar]
  · intro h hlen hvar
    simp [Divergence.calculate_beta, h, not_lt.2 hlen, hvar]

/-- C9 witness: an empty asset series gives beta exactly 1. -/
theorem calculate_beta_guards_witness :
    Divergence.calculate_beta [] [(0, 1)] 60 = 1 :=
  (calculate_beta_guards [] [(0, 1)] 60).1 (Or.inl rfl)

end C9
section C5

/-- Helper: zipping a list of optional values with itself under the
relative-strength difference yields only undefined entries or zeros. -/
theorem zipWith_rs_self (l : List (Option ℚ)) :
    ∀ o ∈ List.zipWith
      (fun x y =>
        match x, y with
        | some u, some v => some ((u - v) * 100)
        | _, _ => none) l l, o = none ∨ o = some 0 := by
  induction l with
  | nil => simp
  | cons a t ih =>
    intro o ho
    rw [List.zipWith_cons_cons] at ho
    rcases List.mem_cons.1 ho with rfl | h'
    · cases a with
      | none => exact Or.inl rfl
      | some u => right; simp
    · exact ih o h'

/-- Helper: the relative strength of a series against itself has only
undefined or zero entries. -/
theorem relative_strength_self_entries (s : Divergence.Series) (w : ℕ) :
    ∀ o ∈ Divergence.calculate_relative_strength s s w, o = none ∨ o = some 0 := by
  by_cases hs : s = []
  · simp [Divergence.calculate_relative_strength, hs]
  · unfold Divergence.calculate_relative_strength
    rw [if_neg (by simp [hs])]
    exact zipWith_rs_self _

/-- Helper: the latest relative strength of a series against itself is
always 0 (either the last entry is 0 or the NaN guard yields 0). -/
theorem currentRS_self (s : Divergence.Series) (w : ℕ) :
    Divergence.currentRS (Divergence.calculate_relative_strength s s w) = 0 := by
  by_cases h : Divergence.calculate_relative_strength s s w = []
  · rw [Divergence.currentRS, h]
    rfl
  · rw [Divergence.currentRS]
    rcases hl : (Divergence.calculate_relative_strength s s w).getLastD none with _ | v
    · rfl
    · have hmem := list_getLastD_mem _ none h
      rw [hl] at hmem
      rcases relative_strength_self_entries s w _ hmem with h' | h'
      · cases h'
      · rw [Option.some_inj.1 h']
        rfl

/-- Helper: on an identical asset and benchmark, the loop body of
detect_divergence never flags the asset, so it leaves the score list
unchanged. -/
theorem detectStep_self_scores (s : Divergence.Series) (w : ℕ) (t : String)
    (th : ℚ) (hth : th < 0) (br : ℚ) (acc : Divergence.DetectAcc) :
    (Divergence.detectStep s w th br acc (t, s)).1 = acc.1 := by
  unfold Divergence.detectStep
  by_cases hs : s = []
  · simp [hs]
  · rw [if_neg hs]
    by_cases hrs : Divergence.calculate_relative_strength s s w = []
    · rw [if_pos hrs]
    · rw [if_neg hrs]
      have hflag : ¬(br ≥ -2 ∧
          Divergence.currentRS (Divergence.calculate_relative_strength s s w) < th * 100) := by
      
        rintro ⟨-, hc⟩
        rw [currentRS_self s w] at hc
        have : th * 100 < 0 := mul_neg_of_neg_of_pos hth (by norm_num)
        linarith
      rw [if_neg hflag]

/-- C5: a series used simultaneously as the single high-beta asset and
as the benchmark gives relative strength 0 at every aligned date where
it is defined, and detect_divergence on that one-asset map reports no
divergence (for any negative configured threshold). -/
theorem divergence_round_trip (s : Divergence.Series) (w : ℕ) (t : String)
    (th : ℚ) (hth : th < 0) :
    (∀ o ∈ Divergence.calculate_relative_strength s s w, o = none ∨ o = some 0)
    ∧ (Divergence.detect_divergence [(t, s)] s w th).divergence_detected = false := by
  refine ⟨relative_strength_self_entries s w, ?_⟩
  by_cases hs : s = []
  · subst hs
    rfl
  · unfold Divergence.detect_divergence
    rw [if_neg hs]
    simp only [List.foldl_cons, List.foldl_nil]
    rw [decide_eq_false_iff_not]
    intro hne
    exact hne (detectStep_self_scores s w t th hth _ ([], [], []))

/-- C5 witness: a concrete two-point series against itself is not
flagged as divergent. -/
theorem divergence_round_trip_witness :
    (Divergence.detect_divergence [("BTC", [(0, 1), (1, 2)])] [(0, 1), (1, 2)] 1
        (-5)).divergence_detected = false :=
  (divergence_round_trip [(0, 1), (1, 2)] 1 "BTC" (-5) (by decide)).2

end C5
section C8

/-- Helper: a list of non-positive rationals has non-positive sum. -/
theorem list_sum_nonpos (l : List ℚ) (h : ∀ x ∈ l, x ≤ 0) : l.sum ≤ 0 := by
  induction l with
  | nil => simp
  | cons a t ih =>
    simp only [List.sum_cons]
    have ha := h a (by simp)
    have ht := ih fun x hx => h x (List.mem_cons_of_mem a hx)
    linarith

/-- Helper: one loop iteration of detect_divergence appends to the score
list exactly the flagged relative-strength value of its entry, if any. -/
theorem detectStep_scores_eq (benchmark : Divergence.Series) (w : ℕ)
    (th br : ℚ) (acc : Divergence.DetectAcc) (e : String × Divergence.Series) :
    (Divergence.detectStep benchmark w th br acc e).1
      = acc.1 ++ ((Divergence.processedRS benchmark w e).bind fun r =>
          if br ≥ -2 ∧ r < th * 100 then some r else none).toList := by
  unfold Divergence.detectStep Divergence.processedRS
  by_cases h1 : e.2 = []
  · simp [h1]
  · rw [if_neg h1, if_neg h1]
    by_cases h2 : Divergence.calculate_relative_strength e.2 benchmark w = []
    · simp [h2]
    · rw [if_neg h2, if_neg h2]
      by_cases h3 : br ≥ -2 ∧
          Divergence.currentRS (Divergence.calculate_relative_strength e.2 benchmark w)
            < th * 100
      · simp [h3]
      · simp [h3]

/-- Helper: the score list accumulated by the loop of detect_divergence
is the flagged relative-strength list. -/
theorem detect_foldl_scores (benchmark : Divergence.Series) (w : ℕ) (th br : ℚ) :
    ∀ (assets : List (String × Divergence.Series)) (acc : Divergence.DetectAcc),
      (assets.foldl (Divergence.detectStep benchmark w th br) acc).1
        = acc.1 ++ assets.filterMap fun e =>
            (Divergence.processedRS benchmark w e).bind fun r =>
              if br ≥ -2 ∧ r < th * 100 then some r else none := by
  intro assets
  induction assets with
  | nil => intro acc; simp
  | cons e tl ih =>
    intro acc
    rw [List.foldl_cons, ih, List.filterMap_cons]
    rcases hf : (Divergence.processedRS benchmark w e).bind fun r =>
        if br ≥ -2 ∧ r < th * 100 then some r else none with _ | r
    · rw [detectStep_scores_eq, hf]
      simp
    · rw [detectStep_scores_eq, hf]
      simp

/-- Helper: every flagged relative-strength value is below the scaled
threshold. -/
theorem flaggedScores_lt (assets : List (String × Divergence.Series))
    (benchmark : Divergence.Series) (w : ℕ) (th : ℚ) :
    ∀ x ∈ Divergence.flaggedScores assets benchmark w th, x < th * 100 := by
  intro x hx
  rcases List.mem_filterMap.1 hx with ⟨e, _, hf⟩
  rcases hp : Divergence.processedRS benchmark w e with _ | r
  · rw [hp] at hf
    cases hf
  · rw [hp] at hf
    by_cases hc : Divergence.trailingReturn (Divergence.closes benchmark) w ≥ -2
        ∧ r < th * 100
    · simp only [Option.some_bind, if_pos hc] at hf
      obtain rfl := Option.some_inj.1 hf
      exact hc.2
    · simp only [Option.some_bind, if_neg hc] at hf
      cases hf

/-- Helper: with an empty benchmark nothing is ever flagged. -/
theorem flaggedScores_bench_nil (assets : List (String × Divergence.Series))
    (w : ℕ) (th : ℚ) : Divergence.flaggedScores assets [] w th = [] := by
  rw [Divergence.flaggedScores, List.filterMap_eq_nil_iff]
  intro e _
  have hrs : Divergence.calculate_relative_strength e.2 [] w = [] := by
    unfold Divergence.calculate_relative_strength
    rw [if_pos (Or.inr rfl)]
  unfold Divergence.processedRS
  by_cases h1 : e.2 = []
  · simp [h1]
  · rw [if_neg h1]
    simp [hrs]

/-- C8: for every asset map, benchmark and window, with a negative
configured threshold, the divergence score of detect_divergence is the
arithmetic mean of the flagged assets' relative-strength values (0 when
none is flagged), the score is non-positive whenever divergence is
detected, and with no flagged asset divergence is not detected and the
score is 0. -/
theorem detect_divergence_score_spec (assets : List (String × Divergence.Series))
    (benchmark : Divergence.Series) (w : ℕ) (th : ℚ) (hth : th < 0) :
    ((Divergence.detect_divergence assets benchmark w th).divergence_score
        = if Divergence.flaggedScores assets benchmark w th = [] then 0
          else (Divergence.flaggedScores assets benchmark w th).sum
            / (Divergence.flaggedScores assets benchmark w th).length)
    ∧ ((Divergence.detect_divergence assets benchmark w th).divergence_detected = true →
        (Divergence.detect_divergence assets benchmark w th).divergence_score ≤ 0)
    ∧ (Divergence.flaggedScores assets benchmark w th = [] →
        (Divergence.detect_divergence assets benchmark w th).divergence_detected = false
        ∧ (Divergence.detect_divergence assets benchmark w th).divergence_score = 0) := by
  have hnonpos : ∀ x ∈ Divergence.flaggedScores assets benchmark w th, x ≤ 0 := by
    intro x hx
    have h1 := flaggedScores_lt assets benchmark w th x hx
    have h2 : th * 100 < 0 := mul_neg_of_neg_of_pos hth (by norm_num)
    linarith
  by_cases hb : benchmark = []
  · subst hb
    have hfs := flaggedScores_bench_nil assets w th
    refine ⟨?_, ?_, fun _ => ⟨rfl, rfl⟩⟩
    · rw [hfs]
      rfl
    · intro hdet
      cases hdet
  · have hscores : (assets.foldl
        (Divergence.detectStep benchmark w th
          (Divergence.trailingReturn (Divergence.closes benchmark) w)) ([], [], [])).1
        = Divergence.flaggedScores assets benchmark w th := by
      rw [detect_foldl_scores]
      rfl
    have hr : Divergence.detect_divergence assets benchmark w th
        = { divergence_detected :=
              decide (Divergence.flaggedScores assets benchmark w th ≠ [])
            divergence_score :=
              if Divergence.flaggedScores assets benchmark w th = [] then 0
              else (Divergence.flaggedScores assets benchmark w th).sum
                / (Divergence.flaggedScores assets benchmark w th).length
            details := (assets.foldl
              (Divergence.detectStep benchmark w th
                (Divergence.trailingReturn (Divergence.closes benchmark) w))
              ([], [], [])).2.1
            benchmark_performance :=
              Divergence.trailingReturn (Divergence.closes benchmark) w
            high_beta_performance := (assets.foldl
              (Divergence.detectStep benchmark w th
                (Divergence.trailingReturn (Divergence.closes benchmark) w))
              ([], [], [])).2.2 } := by
      unfold Divergence.detect_divergence
      rw [if_neg hb]
      simp only [hscores]
    rw [hr]
    refine ⟨rfl, ?_, ?_⟩
    · intro hdet
      simp only [decide_eq_true_eq] at hdet
      simp only [if_neg hdet]
      have hsum := list_sum_nonpos _ hnonpos
      have hlen : (0:ℚ) ≤ ((Divergence.flaggedScores assets benchmark w th).length : ℚ) := by
        positivity
      exact div_nonpos_iff.2 (Or.inr ⟨hsum, hlen⟩)
    · intro hfs
      constructor
      · simp [hfs]
      · simp [hfs]

/-- C8 witness: with no assets at all nothing is flagged, so divergence
is not detected and the score is 0. -/
theorem detect_divergence_score_witness :
    (Divergence.detect_divergence [] [(0, 1)] 1 (-5)).divergence_detected = false
    ∧ (Divergence.detect_divergence [] [(0, 1)] 1 (-5)).divergence_score = 0 :=
  (detect_divergence_score_spec [] [(0, 1)] 1 (-5) (by decide)).2.2 rfl

end C8
section C7

/-- Helper: an asset cannot be both a high-beta underperformer and a
low-beta stable asset. -/
theorem highBetaUnder_not_lowBetaStable (m : Divergence.AssetMetric)
    (h : Divergence.highBetaUnder m = true) :
    Divergence.lowBetaStable m = false := by
  simp only [Divergence.highBetaUnder, decide_eq_true_eq] at h
  simp only [Divergence.lowBetaStable, decide_eq_false_iff_not, not_and]
  intro hb
  linarith [h.1]

/-- Helper: the counting loop of analyze_liquidity_retreat computes the
two qualification counts and appends the qualifying tickers in order. -/
theorem retreat_foldl (ms : List Divergence.AssetMetric) :
    ∀ (h l : ℕ) (ord : List String),
      ms.foldl Divergence.retreatStep (h, l, ord)
        = (h + ms.countP Divergence.highBetaUnder,
           l + ms.countP Divergence.lowBetaStable,
           ord ++ (ms.filter Divergence.highBetaUnder).map Divergence.AssetMetric.ticker) := by
  induction ms with
  | nil => intro h l ord; simp
  | cons m tl ih =>
    intro h l ord
    rw [List.foldl_cons]
    by_cases hm : Divergence.highBetaUnder m = true
    · have hstep : Divergence.retreatStep (h, l, ord) m
          = (h + 1, l, ord ++ [m.ticker]) := by
        unfold Divergence.retreatStep
        rw [if_pos hm]
      rw [hstep, ih]
      rw [List.countP_cons_of_pos _ _ hm,
        List.countP_cons_of_neg _ _ (by simp [highBetaUnder_not_lowBetaStable m hm]),
        List.filter_cons_of_pos hm]
      simp [Nat.add_comm, Nat.add_assoc, Nat.add_left_comm]
    · have hm' : Divergence.highBetaUnder m = false := by
        simpa using hm
      by_cases hl2 : Divergence.lowBetaStable m = true
      · have hstep : Divergence.retreatStep (h, l, ord) m = (h, l + 1, ord) := by
          unfold Divergence.retreatStep
          rw [if_neg (by simp [hm']), if_pos hl2]
        rw [hstep, ih]
        rw [List.countP_cons_of_neg _ _ (by simp [hm']),
          List.countP_cons_of_pos _ _ hl2, List.filter_cons_of_neg (by simp [hm'])]
        simp [Nat.add_comm, Nat.add_assoc, Nat.add_left_comm]
      · have hl2' : Divergence.lowBetaStable m = false := by
          simpa using hl2
        have hstep : Divergence.retreatStep (h, l, ord) m = (h, l, ord) := by
          unfold Divergence.retreatStep
          rw [if_neg (by simp [hm']), if_neg (by simp [hl2'])]
        rw [hstep, ih]
        rw [List.countP_cons_of_neg _ _ (by simp [hm']),
          List.countP_cons_of_neg _ _ (by simp [hl2']), List.filter_cons_of_neg (by simp [hm'])]

/-- C7: analyze_liquidity_retreat detects a retreat exactly when at
least 2 computed metrics qualify as high-beta underperforming and at
least 1 as low-beta stable; severity is high exactly when at least 3
qualify, medium otherwise, none when not detected; and retreat_order is
the qualifying high-beta underperformers of the beta-descending sorted
metrics, whose beta values are pairwise non-increasing and which are a
permutation of all qualifying computed metrics. -/
theorem analyze_liquidity_retreat_spec (assets : List (String × Divergence.Series))
    (benchmark : Divergence.Series) :
    ((Divergence.analyze_liquidity_retreat assets benchmark).retreat_detected
        = decide (2 ≤ (Divergence.assetMetrics assets benchmark).countP
              Divergence.highBetaUnder
            ∧ 1 ≤ (Divergence.assetMetrics assets benchmark).countP
              Divergence.lowBetaStable))
    ∧ ((Divergence.analyze_liquidity_retreat assets benchmark).severity
        = if (Divergence.analyze_liquidity_retreat assets benchmark).retreat_detected
          then if 3 ≤ (Divergence.assetMetrics assets benchmark).countP
                  Divergence.highBetaUnder
               then "high" else "medium"
          else "none")
    ∧ ((Divergence.analyze_liquidity_retreat assets benchmark).retreat_order
        = (((Divergence.assetMetrics assets benchmark).mergeSort
              (fun a b => decide (b.beta ≤ a.beta))).filter
              Divergence.highBetaUnder).map Divergence.AssetMetric.ticker)
    ∧ List.Pairwise (fun x y => y ≤ x)
        ((((Divergence.assetMetrics assets benchmark).mergeSort
            (fun a b => decide (b.beta ≤ a.beta))).filter
            Divergence.highBetaUnder).map Divergence.AssetMetric.beta)
    ∧ ((((Divergence.assetMetrics assets benchmark).mergeSort
          (fun a b => decide (b.beta ≤ a.beta))).filter
          Divergence.highBetaUnder).Perm
        ((Divergence.assetMetrics assets benchmark).filter Divergence.highBetaUnder)) := by
  have hperm := List.mergeSort_perm (Divergence.assetMetrics assets benchmark)
    (fun a b => decide (b.beta ≤ a.beta))
  have hcntH := hperm.countP_eq Divergence.highBetaUnder
  have hcntL := hperm.countP_eq Divergence.lowBetaStable
  have hfold := retreat_foldl
    ((Divergence.assetMetrics assets benchmark).mergeSort
      (fun a b => decide (b.beta ≤ a.beta))) 0 0 []
  have hr : Divergence.analyze_liquidity_retreat assets benchmark
      = if 2 ≤ (Divergence.assetMetrics assets benchmark).countP Divergence.highBetaUnder
          ∧ 1 ≤ (Divergence.assetMetrics assets benchmark).countP Divergence.lowBetaStable
        then { retreat_detected := true
               retreat_order :=
                 (((Divergence.assetMetrics assets benchmark).mergeSort
                   (fun a b => decide (b.beta ≤ a.beta))).filter
                   Divergence.highBetaUnder).map Divergence.AssetMetric.ticker
               severity :=
                 if 3 ≤ (Divergence.assetMetrics assets benchmark).countP
                     Divergence.highBetaUnder
                 then "high" else "medium" }
        else { retreat_detected := false
               retreat_order :=
                 (((Divergence.assetMetrics assets benchmark).mergeSort
                   (fun a b => decide (b.beta ≤ a.beta))).filter
                   Divergence.highBetaUnder).map Divergence.AssetMetric.ticker
               severity := "none" } := by
    unfold Divergence.analyze_liquidity_retreat
    simp only [hfold, hcntH, hcntL, Nat.zero_add, List.nil_append]
  refine ⟨?_, ?_, ?_, ?_, hperm.filter Divergence.highBetaUnder⟩
  · rw [hr]
    by_cases hc : 2 ≤ (Divergence.assetMetrics assets benchmark).countP
        Divergence.highBetaUnder
      ∧ 1 ≤ (Divergence.assetMetrics assets benchmark).countP Divergence.lowBetaStable
    · rw [if_pos hc]
      exact (decide_eq_true hc).symm
    · rw [if_neg hc]
      exact (decide_eq_false hc).symm
  · rw [hr]
    by_cases hc : 2 ≤ (Divergence.assetMetrics assets benchmark).countP
        Divergence.highBetaUnder
      ∧ 1 ≤ (Divergence.assetMetrics assets benchmark).countP Divergence.lowBetaStable
    · rw [if_pos hc]
      rfl
    · rw [if_neg hc]
      rfl
  · rw [hr]
    by_cases hc : 2 ≤ (Divergence.assetMetrics assets benchmark).countP
        Divergence.highBetaUnder
      ∧ 1 ≤ (Divergence.assetMetrics assets benchmark).countP Divergence.lowBetaStable
    · rw [if_pos hc]
    · rw [if_neg hc]
  · have hsorted := @List.sorted_mergeSort Divergence.AssetMetric
      (fun a b => decide (b.beta ≤ a.beta))
      (fun a b c hab hbc =>
        decide_eq_true (le_trans (of_decide_eq_true hbc) (of_decide_eq_true hab)))
      (fun a b => by
        simp only [Bool.or_eq_true, decide_eq_true_eq]
        exact (le_total b.beta a.beta))
      (Divergence.assetMetrics assets benchmark)
    exact ((hsorted.filter Divergence.highBetaUnder).map Divergence.AssetMetric.beta
      (fun a b hab => of_decide_eq_true hab))

end C7
section C6

/-- Helper: logReturns preserves the series length. -/
theorem logReturns_length (close : List ℝ) :
    (Volatility.logReturns close).length = close.length := by
  simp [Volatility.logReturns]

/-- Helper: rollingStd preserves the series length. -/
theorem rollingStd_length (w : ℕ) (xs : List (Option ℝ)) :
    (Volatility.rollingStd w xs).length = xs.length := by
  simp [Volatility.rollingStd]

/-- Helper: the historical-volatility series has one entry per price. -/
theorem hv_length (close : List ℝ) (w : ℕ) :
    (Volatility.calculate_historical_volatility close w).length = close.length := by
  simp [Volatility.calculate_historical_volatility, rollingStd_length, logReturns_length]

/-- Helper: the log-return series of a non-empty price series starts
with an undefined entry (the shifted first value). -/
theorem logReturns_cons (close : List ℝ) (h : close ≠ []) :
    ∃ t, Volatility.logReturns close = none :: t := by
  obtain ⟨m, hm⟩ : ∃ m, close.length = m + 1 :=
    ⟨close.length - 1, by
      have := List.length_pos.2 h
      omega⟩
  unfold Volatility.logReturns
  rw [hm, List.range_succ_eq_map, List.map_cons]
  refine ⟨List.map (fun i => if i = 0 then none
    else some (Real.log (close.getD i 0 / close.getD (i - 1) 0)))
    (List.map Nat.succ (List.range m)), ?_⟩
  rw [if_pos rfl]

/-- Helper: a window beginning with an undefined entry is not complete. -/
theorem all_isSome_take_false (t : List (Option ℝ)) (w : ℕ) (hw : 1 ≤ w) :
    (((none : Option ℝ) :: t).take w).all Option.isSome = false := by
  cases w with
  | zero => omega
  | succ n => simp [List.take_succ_cons]

/-- Helper: a rolling window that would need the undefined first log
return is not complete. -/
theorem slice_all_false (close : List ℝ) (w i : ℕ) (hclose : close ≠ [])
    (hw1 : 1 ≤ w) (hle : i + 1 ≤ w) :
    ((((Volatility.logReturns close).drop (i + 1 - w)).take w).all Option.isSome)
      = false := by
  have hz : i + 1 - w = 0 := by omega
  rw [hz, List.drop_zero]
  obtain ⟨t, ht⟩ := logReturns_cons close hclose
  rw [ht]
  exact all_isSome_take_false t w hw1

/-- Helper: an entry of the historical-volatility series lies inside the
price range and has the rolling-standard-deviation shape. -/
theorem hv_getElem_some (close : List ℝ) (w i : ℕ) (x : Option ℝ)
    (hx : (Volatility.calculate_historical_volatility close w)[i]? = some x) :
    i < close.length ∧ x = Option.map (fun s => s * Real.sqrt 252 * 100)
      (if 2 ≤ w ∧ w ≤ i + 1 then
        (if (((Volatility.logReturns close).drop (i + 1 - w)).take w).all Option.isSome
         then some (Real.sqrt (Volatility.sampleVarR
            ((((Volatility.logReturns close).drop (i + 1 - w)).take w).filterMap id)))
         else none)
      else none) := by
  have hilt : i < close.length := by
    by_contra h'
    rw [List.getElem?_eq_none (by rw [hv_length]; omega)] at hx
    cases hx
  refine ⟨hilt, ?_⟩
  unfold Volatility.calculate_historical_volatility Volatility.rollingStd at hx
  rw [List.getElem?_map, List.getElem?_map,
    List.getElem?_range (by rw [logReturns_length]; exact hilt)] at hx
  simpa using hx.symm

/-- C6: for every price series with at least 21 observations and every
window of at least 1, the historical-volatility series is undefined at
each of the first window positions, has a defined value only when at
least window + 1 prices exist, and every defined value is
non-negative. -/
theorem historical_volatility_spec (close : List ℝ) (w : ℕ) (hw : 1 ≤ w)
    (hlen : 21 ≤ close.length) :
    (∀ i : ℕ, i < w → ∀ o : Option ℝ,
        (Volatility.calculate_historical_volatility close w)[i]? = some o →
        o = none)
    ∧ (∀ (i : ℕ) (v : ℝ),
        (Volatility.calculate_historical_volatility close w)[i]? = some (some v) →
        w + 1 ≤ close.length)
    ∧ (∀ (i : ℕ) (v : ℝ),
        (Volatility.calculate_historical_volatility close w)[i]? = some (some v) →
        0 ≤ v) := by
  have hclose : close ≠ [] := by
    intro h
    rw [h] at hlen
    simp at hlen
  refine ⟨?_, ?_, ?_⟩
  · intro i hiw o ho
    obtain ⟨hilt, hshape⟩ := hv_getElem_some close w i o ho
    by_cases hcond : 2 ≤ w ∧ w ≤ i + 1
    · rw [if_pos hcond, slice_all_false close w i hclose (by omega) (by omega)] at hshape
      simpa using hshape
    · rw [if_neg hcond] at hshape
      simpa using hshape
  · intro i v ho
    obtain ⟨hilt, hshape⟩ := hv_getElem_some close w i (some v) ho
    by_cases hcond : 2 ≤ w ∧ w ≤ i + 1
    · by_cases hging : i + 1 ≤ w
      · rw [if_pos hcond, slice_all_false close w i hclose (by omega) hging] at hshape
        simp at hshape
      · omega
    · rw [if_neg hcond] at hshape
      simp at hshape
  · intro i v ho
    obtain ⟨hilt, hshape⟩ := hv_getElem_some close w i (some v) ho
    by_cases hcond : 2 ≤ w ∧ w ≤ i + 1
    · rw [if_pos hcond] at hshape
      by_cases hall : (((Volatility.logReturns close).drop (i + 1 - w)).take w).all
          Option.isSome
      · rw [if_pos hall] at hshape
        have hv2 : v = Real.sqrt (Volatility.sampleVarR
            ((((Volatility.logReturns close).drop (i + 1 - w)).take w).filterMap id))
            * Real.sqrt 252 * 100 := Option.some_inj.1 hshape
        rw [hv2]
        positivity
      · rw [if_neg hall] at hshape
        simp at hshape
    · rw [if_neg hcond] at hshape
      simp at hshape

/-- C6 witness: a constant 21-observation price series with window 20
satisfies the hypotheses; its first 20 volatility entries are
undefined. -/
theorem historical_volatility_spec_witness :
    (1 ≤ 20 ∧ 21 ≤ (List.replicate 21 (100 : ℝ)).length)
    ∧ (∀ o : Option ℝ, (Volatility.calculate_historical_volatility
        (List.replicate 21 (100 : ℝ)) 20)[0]? = some o → o = none) :=
  ⟨⟨by decide, by simp⟩,
    (historical_volatility_spec (List.replicate 21 (100 : ℝ)) 20 (by decide)
      (by simp)).1 0 (by decide)⟩

end C6
section C10

/-- C10: for every price series with fewer than 20 rows,
is_volatility_spiking returns false regardless of the price values,
because the spiking comparison is only evaluated when the
historical-volatility series (one entry per price row) has at least 20
entries. -/
theorem is_volatility_spiking_short_series (close : List ℝ)
    (h : close.length < 20) : Volatility.is_volatility_spiking close = false := by
  unfold Volatility.is_volatility_spiking
  rw [if_pos (by rw [hv_length]; exact h)]

/-- C10 witness: a three-point price series is never reported as
spiking. -/
theorem is_volatility_spiking_short_series_witness :
    Volatility.is_volatility_spiking [(100 : ℝ), 105, 95] = false :=
  is_volatility_spiking_short_series [(100 : ℝ), 105, 95] (by simp)

end C10
